import Mathlib

/-!
Shallow embedding of the cancelable query-loader pattern of the
React-SOLID-Principles repository, together with the example fetchers.

The main object is the `useQuery` hook:

  * component state: `loading : Bool` (initially `true`), `data : T | null`
    (initially `null`), `errors : string[]` (initially `[]`);
  * each effect run creates a fresh `AbortController`, runs `loadData`:
    `setLoading(true)`; `await fetcher({signal})`; on resolution
    `setData(result); setErrors([])`; on rejection, if the error is an
    `Error` named `AbortError` the handler returns, otherwise
    `setErrors([message]); setData(null)`; in all cases the `finally`
    clause runs `setLoading(false)`;
  * the effect cleanup calls `abortController.abort()` and nothing else:
    the resolution handlers never consult the controller, so a settlement
    of the promise always updates the component state.

Promise settlement is modelled by a total function on the component state
(the handlers close over the three setters only), and the sequencing of
effect runs and settlements by a list of events folded over the state.
-/

/-- A thrown JavaScript value: either an `Error` instance, carrying its
`name` and `message`, or any non-`Error` throwable. -/
inductive JsError where
  | error (name : String) (message : String)
  | other
deriving DecidableEq

/-- The test `error instanceof Error && error.name === 'AbortError'`
performed by the catch block of `loadData` in `useQuery`. -/
def isAbortError : JsError → Bool
  | JsError.error name _ => name == "AbortError"
  | JsError.other => false

/-- `error instanceof Error ? error.message : 'An unknown error occurred'`:
the message stored by the catch block of `loadData` in `useQuery`. -/
def errorMessageOf : JsError → String
  | JsError.error _ message => message
  | JsError.other => "An unknown error occurred"

/-- How a fetcher's promise eventually settles: it resolves with a value or
rejects with a thrown value (a synchronous throw inside the async fetcher
also surfaces as a rejection at the `await`). -/
inductive FetchOutcome (T : Type) where
  | resolve (v : T)
  | reject (e : JsError)
deriving DecidableEq

/-- An `AbortController` as far as the loader uses it: the cleanup flips
`aborted`; the signal is handed to the fetcher and to nothing else. -/
structure AbortController where
  aborted : Bool
deriving DecidableEq

/-- `abortController.abort()`, called by the effect cleanup of `useQuery`. -/
def abortCall (_c : AbortController) : AbortController :=
  { aborted := true }

/-- The state exposed by `useQuery`: the `QueryResult<T>` interface,
`{ loading: boolean; data: T | null; errors: string[] }`. -/
structure QueryResult (T : Type) where
  loading : Bool
  data : Option T
  errors : List String
deriving DecidableEq

/-- The initial `useState` values of `useQuery`:
`loading = true`, `data = null`, `errors = []`. -/
def useQueryInit (T : Type) : QueryResult T :=
  { loading := true, data := none, errors := [] }

/-- The synchronous prefix of `loadData`: `setLoading(true)` runs when the
effect fires, before the `await` suspends. -/
def useQueryBegin {T : Type} (s : QueryResult T) : QueryResult T :=
  { s with loading := true }

/-- The try block of `loadData` from the `await` on: a resolution stores the
value (`setData(result); setErrors([])`); a rejection re-raises at the
`await` and escapes the try block. -/
def loadDataTry {T : Type} (s : QueryResult T) (o : FetchOutcome T) :
    Except JsError (QueryResult T) :=
  match o with
  | FetchOutcome.resolve v => Except.ok { s with data := some v, errors := [] }
  | FetchOutcome.reject e => Except.error e

/-- The catch block of `loadData`: an `AbortError`-named `Error` is dropped
(`return`); any other throwable is recorded
(`setErrors([errorMessage]); setData(null)`). The block is total: it can
never itself throw. -/
def loadDataCatch {T : Type} (s : QueryResult T) (e : JsError) : QueryResult T :=
  if isAbortError e then s
  else { s with errors := [errorMessageOf e], data := none }

/-- The finally clause of `loadData`: `setLoading(false)`, run on every path
out of the try/catch, the early `return` of the abort branch included. -/
def loadDataFinally {T : Type} (s : QueryResult T) : QueryResult T :=
  { s with loading := false }

/-- One settlement of the fetch promise as `loadData` handles it, with the
exception plumbing explicit: the catch block intercepts the rejection and
the finally clause runs last. The result is `Except.ok` in every case —
nothing escapes `loadData`. The controller is passed for the record: the
source handlers close over the three setters only and never consult it. -/
def loadDataRun {T : Type} (_ctl : AbortController) (s : QueryResult T)
    (o : FetchOutcome T) : Except JsError (QueryResult T) :=
  match loadDataTry s o with
  | Except.ok s1 => Except.ok (loadDataFinally s1)
  | Except.error e => Except.ok (loadDataFinally (loadDataCatch s e))

/-- The net state change of one settlement of the fetch promise in
`useQuery`, written directly: resolution stores the value and clears the
errors, an `AbortError` rejection changes nothing but `loading`, any other
rejection stores the single message and clears `data`; `loading` ends
`false` on every path. The controller is ignored exactly as the source
handlers ignore it. -/
def useQuerySettle {T : Type} (_ctl : AbortController) (s : QueryResult T)
    (o : FetchOutcome T) : QueryResult T :=
  match o with
  | FetchOutcome.resolve v => { s with data := some v, errors := [], loading := false }
  | FetchOutcome.reject e =>
      if isAbortError e then { s with loading := false }
      else { s with errors := [errorMessageOf e], data := none, loading := false }

/-- Events observable on one `useQuery` instance: a run of the effect
(a fresh activation — the previous activation's cleanup has just aborted
its controller), or the settlement of activation `act`'s fetch. -/
inductive QueryEv (T : Type) where
  | effectRun
  | settle (act : Nat) (o : FetchOutcome T)

/-- A `useQuery` instance: its rendered `QueryResult` plus the number of
effect runs so far (activations are numbered from 1; controller `act` has
been aborted by its cleanup exactly when a later activation exists). -/
structure LoaderState (T : Type) where
  result : QueryResult T
  activations : Nat
deriving DecidableEq

/-- The state of a `useQuery` instance before its first effect run. -/
def initLoaderState (T : Type) : LoaderState T :=
  { result := useQueryInit T, activations := 0 }

/-- The controller of activation `act` as seen at the current instant:
aborted exactly when the activation has been superseded (its cleanup ran
before a later effect run). -/
def ctlOf {T : Type} (ls : LoaderState T) (act : Nat) : AbortController :=
  { aborted := decide (act ≠ ls.activations) }

/-- One step of a `useQuery` instance. An effect run performs the
synchronous `setLoading(true)` and registers the new activation. A
settlement applies `useQuerySettle` to the current state unconditionally:
the source has no staleness check, so the handler runs whichever
activation the settling promise belongs to and whatever its controller's
state. -/
def stepLoader {T : Type} (ls : LoaderState T) (ev : QueryEv T) : LoaderState T :=
  match ev with
  | QueryEv.effectRun =>
      { result := useQueryBegin ls.result, activations := ls.activations + 1 }
  | QueryEv.settle act o =>
      { ls with result := useQuerySettle (ctlOf ls act) ls.result o }

/-- Run a `useQuery` instance over a sequence of events, starting before
the first effect run. -/
def runLoader {T : Type} (evs : List (QueryEv T)) : LoaderState T :=
  evs.foldl stepLoader (initLoaderState T)

/-!
The dip-variant hook `useLoadData` (src/dip/hooks/useLoadData.ts) keeps
`data : T | null`, `loading : Bool` (initially `true`) and
`error : string | null`. Its effect sets a closure flag `isMounted = true`,
runs `load()` (`setLoading(true); setError(null)`, then the awaited fetch),
and every state update on the success, error and finally paths is wrapped
in `if (isMounted)`; the cleanup sets `isMounted = false`.
-/

/-- The state of `useLoadData`: `{ data, loading, error }`. -/
structure LoadDataState (T : Type) where
  data : Option T
  loading : Bool
  error : Option String
deriving DecidableEq

/-- The initial `useState` values of `useLoadData`. -/
def useLoadDataInit (T : Type) : LoadDataState T :=
  { data := none, loading := true, error := none }

/-- The synchronous prefix of `load()`:
`setLoading(true); setError(null)` before the `await`. -/
def useLoadDataBegin {T : Type} (s : LoadDataState T) : LoadDataState T :=
  { s with loading := true, error := none }

/-- `e instanceof Error ? e.message : 'Failed to fetch data'`: the message
stored by the catch block of `load()` in `useLoadData`. -/
def useLoadDataMsg : JsError → String
  | JsError.error _ message => message
  | JsError.other => "Failed to fetch data"

/-- One settlement of the fetch in `useLoadData`, given the value of the
`isMounted` closure flag at that instant: `if (isMounted) setData(result)`
on resolution, `if (isMounted) setError(...)` on rejection, and the finally
clause `if (isMounted) setLoading(false)` in both cases. -/
def useLoadDataSettle {T : Type} (isMounted : Bool) (s : LoadDataState T)
    (o : FetchOutcome T) : LoadDataState T :=
  let s1 :=
    match o with
    | FetchOutcome.resolve v => if isMounted then { s with data := some v } else s
    | FetchOutcome.reject e =>
        if isMounted then { s with error := some (useLoadDataMsg e) } else s
  if isMounted then { s1 with loading := false } else s1

/-!
The srp-variant hook `useGetUser` keeps `loading : Bool` (initially
`true`), `data : User[]` (initially `[]` — never null by type) and
`errors : string[]`. Its settle logic mirrors `useQuery` except that the
error path resets `data` to the empty array (`setData([])`) instead of
null; the users payload is abstract here.
-/

/-- The state of `useGetUser`: `{ loading, data, errors }` with `data`
typed `User[]` — a list, with no null inhabitant. -/
structure UserQueryState (U : Type) where
  loading : Bool
  data : List U
  errors : List String
deriving DecidableEq

/-- The initial `useState` values of `useGetUser`:
`loading = true`, `data = []`, `errors = []`. -/
def useGetUserInit (U : Type) : UserQueryState U :=
  { loading := true, data := [], errors := [] }

/-- One settlement of the fetch in `useGetUser`: resolution stores the list
and clears the errors; an `AbortError` rejection returns early (only the
finally clause runs); any other rejection stores the single message and
resets `data` to `[]`; the finally clause sets `loading` to `false` on
every path. -/
def useGetUserSettle {U : Type} (s : UserQueryState U)
    (o : FetchOutcome (List U)) : UserQueryState U :=
  match o with
  | FetchOutcome.resolve users => { s with data := users, errors := [], loading := false }
  | FetchOutcome.reject e =>
      if isAbortError e then { s with loading := false }
      else { s with errors := [errorMessageOf e], data := [], loading := false }

/-!
The example fetchers: `fetchUsers` (src/srp/services/user.ts) and
`UserApiService.getUsers` (src/dip/services/UserApiService.ts). An HTTP
response is modelled by its `ok` flag, status line and already-parsed JSON
body (`response.json()` is assumed to parse; its input is out of scope).
A rejection is represented by the thrown `Error`'s message.
-/

/-- A parsed JSON value, as `response.json()` can produce it. -/
inductive Json where
  | null
  | bool (b : Bool)
  | num (n : Int)
  | str (s : String)
  | arr (items : List Json)
  | obj (fields : List (String × Json))

/-- JavaScript truthiness of a JSON value (`null`, `false`, `0` and `""`
are falsy; arrays and objects are truthy). -/
def jsTruthy : Json → Bool
  | Json.null => false
  | Json.bool b => b
  | Json.num n => n != 0
  | Json.str s => s != ""
  | Json.arr _ => true
  | Json.obj _ => true

/-- Property access `j.key` on a JSON value: a field of an object when
present, otherwise JavaScript's `undefined`, rendered as `none` (access on
primitives yields `undefined`; access on `null` throws and is handled at
the caller). -/
def jsonField : Json → String → Option Json
  | Json.obj fields, key => (fields.find? (fun p => p.1 == key)).map Prod.snd
  | _, _ => none

/-- The fields of an HTTP response that the fetchers read. -/
structure HttpResponse where
  ok : Bool
  status : Nat
  statusText : String
  body : Json

/-- `Array.isArray(result) ? result : result.data || []` from `fetchUsers`:
an array passes through; otherwise the truthy `data` field is taken, with
`[]` as the `||` fallback; `null.data` throws a `TypeError`. -/
def coerceToArray (result : Json) : Except String Json :=
  match result with
  | Json.arr items => Except.ok (Json.arr items)
  | Json.null =>
      Except.error "TypeError: Cannot read properties of null (reading 'data')"
  | j =>
      Except.ok
        (match jsonField j "data" with
         | some d => if jsTruthy d then d else Json.arr []
         | none => Json.arr [])

/-- `fetchUsers` from src/srp/services/user.ts, from the point the response
arrives: a non-ok response throws
`Error('HTTP Error: <status> <statusText>')`; otherwise the parsed body is
coerced to an array and returned. -/
def fetchUsers (resp : HttpResponse) : Except String Json :=
  if !resp.ok then
    Except.error ("HTTP Error: " ++ toString resp.status ++ " " ++ resp.statusText)
  else
    coerceToArray resp.body

/-- `UserApiService.getUsers` from src/dip/services/UserApiService.ts, from
the point the response arrives: a non-ok response throws
`Error('Network response was not ok')`; otherwise the parsed body is
returned as is. -/
def userApiServiceGetUsers (resp : HttpResponse) : Except String Json :=
  if !resp.ok then Except.error "Network response was not ok"
  else Except.ok resp.body

/-- The invariant that does hold of the `useQuery` result at every
observable point: `data` present and `errors` non-empty never hold
simultaneously, and `errors` carries at most one message. -/
def resultConsistent {T : Type} (s : QueryResult T) : Prop :=
  (s.data = none ∨ s.errors = []) ∧ s.errors.length ≤ 1

/-- Claim C5: a settlement of the fetch by resolution with value `v` puts
`useQuery` into exactly the terminal success state: `data` is `v` itself,
`errors` is empty and `loading` is `false` — for any prior state and any
controller (cancelled or not; the handler never consults it). -/
theorem useQuery_resolve_success {T : Type} (ctl : AbortController)
    (s : QueryResult T) (v : T) :
    useQuerySettle ctl s (FetchOutcome.resolve v) =
      { loading := false, data := some v, errors := [] } := rfl

/-- Claim C6: a settlement by rejection with a generic (non-AbortError)
throwable puts `useQuery` into exactly the terminal error state: `errors`
is the one-element list holding the error's message — the `message` field
when the throwable is an `Error`, the generic coercion otherwise — and
`data` is cleared to `none`, `loading` to `false`. -/
theorem useQuery_generic_reject_error {T : Type} (ctl : AbortController)
    (s : QueryResult T) (e : JsError) (h : isAbortError e = false) :
    useQuerySettle ctl s (FetchOutcome.reject e) =
      { loading := false, data := none, errors := [errorMessageOf e] } ∧
    [errorMessageOf e] ≠ [] ∧
    (∀ nm ms : String, errorMessageOf (JsError.error nm ms) = ms) ∧
    errorMessageOf JsError.other = "An unknown error occurred" := by
  refine ⟨?_, by simp, fun _ _ => rfl, rfl⟩
  simp [useQuerySettle, h]

/-- Witness for C6 at a concrete rejected `TypeError`. -/
theorem useQuery_generic_reject_error_witness :
    isAbortError (JsError.error "TypeError" "Failed to fetch") = false ∧
    useQuerySettle { aborted := false } (useQueryInit Nat)
        (FetchOutcome.reject (JsError.error "TypeError" "Failed to fetch")) =
      { loading := false, data := none, errors := ["Failed to fetch"] } :=
  ⟨by decide,
   (useQuery_generic_reject_error { aborted := false } (useQueryInit Nat)
     (JsError.error "TypeError" "Failed to fetch") (by decide)).1⟩

/-- Claim C7: with the exception plumbing of `loadData` made explicit,
every settlement — a resolution, a synchronous throw surfacing as a
rejection, a rejection with a non-`Error` value — is intercepted by the
catch/finally structure and converted into the result state computed by
`useQuerySettle`; the run is `Except.ok` in every case, so no exception
ever escapes the loader to the caller of the hook. -/
theorem useQuery_no_exception_escapes {T : Type} (ctl : AbortController)
    (s : QueryResult T) (o : FetchOutcome T) :
    loadDataRun ctl s o = Except.ok (useQuerySettle ctl s o) := by
  cases o with
  | resolve v => rfl
  | reject e =>
      cases h : isAbortError e <;>
        simp [loadDataRun, loadDataTry, loadDataCatch, loadDataFinally,
          useQuerySettle, h]

/-- Claim C9: in the dip-variant `useLoadData`, every state update on the
success, error and finally paths is guarded by the `isMounted` flag, so
once the effect cleanup has set the flag to `false`, a settlement of the
still-pending fetch — whichever way it resolves or rejects — leaves all
three slots `data`, `loading`, `error` exactly unchanged. -/
theorem useLoadData_unmounted_no_mutation {T : Type} (s : LoadDataState T)
    (o : FetchOutcome T) : useLoadDataSettle false s o = s := by
  cases o <;> rfl

/-- Claim C10: in the srp-variant `useGetUser`, `data` is initialized to
the empty list and reset to the empty list on a generic error, so at every
observable point it is a list (the slot's type has no null inhabitant),
and the `data` observation alone cannot separate the never-completed
state, the errored state and a successful fetch of zero items: all three
show `[]`. -/
theorem useGetUser_data_always_array {U : Type} (s s2 : UserQueryState U)
    (e : JsError) (h : isAbortError e = false) :
    (useGetUserInit U).data = [] ∧
    (useGetUserSettle s (FetchOutcome.reject e)).data = [] ∧
    (useGetUserSettle s2 (FetchOutcome.resolve [])).data = [] ∧
    (useGetUserSettle s (FetchOutcome.reject e)).data =
      (useGetUserSettle s2 (FetchOutcome.resolve [])).data := by
  refine ⟨rfl, ?_, rfl, ?_⟩ <;> simp [useGetUserSettle, h]

/-- Witness for C10: an errored settlement wipes a previously non-empty
`data` back to the empty list. -/
theorem useGetUser_data_always_array_witness :
    isAbortError (JsError.error "TypeError" "Failed to fetch") = false ∧
    (useGetUserSettle ({ loading := false, data := [0], errors := [] } : UserQueryState Nat)
        (FetchOutcome.reject (JsError.error "TypeError" "Failed to fetch"))).data = [] :=
  ⟨by decide,
   (useGetUser_data_always_array
     ({ loading := false, data := [0], errors := [] } : UserQueryState Nat)
     (useGetUserInit Nat)
     (JsError.error "TypeError" "Failed to fetch") (by decide)).2.1⟩

/-- Claim C1, counterexample: activation 1 is stopped (its cleanup ran and
aborted its controller when activation 2's effect run superseded it), its
fetch is still in flight, and the fetcher ignores the abort signal and
later resolves with 7. Because the resolution handler never consults the
controller, `data` — `none` at the moment of the stop — is mutated to
`some 7` by the cancelled fetch's resolution. -/
theorem useQuery_stop_mutation_cex :
    (ctlOf (runLoader ([QueryEv.effectRun, QueryEv.effectRun] :
        List (QueryEv Nat))) 1).aborted = true ∧
    (runLoader ([QueryEv.effectRun, QueryEv.effectRun] :
        List (QueryEv Nat))).result.data = none ∧
    (runLoader ([QueryEv.effectRun, QueryEv.effectRun,
        QueryEv.settle 1 (FetchOutcome.resolve 7)] :
        List (QueryEv Nat))).result.data = some 7 :=
  ⟨rfl, rfl, rfl⟩

/-- Claim C1 as amended: after a stop, the settlement of the in-flight
fetch leaves `data` and `errors` untouched exactly when the fetcher honors
the cancellation by rejecting with an `AbortError`-named `Error` (even
then the finally clause sets `loading` to `false`); a fetcher that ignores
the signal and resolves does mutate `data`, for the loader has no
stale-token check. -/
theorem useQuery_stop_cooperative_suppression {T : Type} (s : QueryResult T)
    (e : JsError) (h : isAbortError e = true) :
    ((useQuerySettle (abortCall { aborted := false }) s (FetchOutcome.reject e)).data = s.data ∧
     (useQuerySettle (abortCall { aborted := false }) s (FetchOutcome.reject e)).errors = s.errors ∧
     (useQuerySettle (abortCall { aborted := false }) s (FetchOutcome.reject e)).loading = false) ∧
    ∀ v : T, (useQuerySettle (abortCall { aborted := false }) s
      (FetchOutcome.resolve v)).data = some v := by
  refine ⟨⟨?_, ?_, ?_⟩, fun v => rfl⟩ <;> simp [useQuerySettle, h]

/-- Witness for the amended C1 at a concrete `AbortError` rejection. -/
theorem useQuery_stop_cooperative_suppression_witness :
    isAbortError (JsError.error "AbortError" "signal is aborted without reason") = true ∧
    (useQuerySettle (abortCall { aborted := false }) (useQueryInit Nat)
      (FetchOutcome.reject
        (JsError.error "AbortError" "signal is aborted without reason"))).data = none :=
  ⟨by decide,
   ((useQuery_stop_cooperative_suppression (useQueryInit Nat)
     (JsError.error "AbortError" "signal is aborted without reason")
     (by decide)).1).1.trans rfl⟩

/-- Claim C2, counterexample: two effect runs back to back, then
activation 2's fetch resolves with 2 (terminal success), then
activation 1's fetch — whose fetcher ignored the abort — resolves with 1.
The first invocation's resolution does set `data`, overwriting the second
invocation's result: the final state reflects completion order, not
activation order. -/
theorem useQuery_supersede_cex :
    (runLoader ([QueryEv.effectRun, QueryEv.effectRun,
        QueryEv.settle 2 (FetchOutcome.resolve 2)] :
        List (QueryEv Nat))).result.data = some 2 ∧
    (runLoader ([QueryEv.effectRun, QueryEv.effectRun,
        QueryEv.settle 2 (FetchOutcome.resolve 2),
        QueryEv.settle 1 (FetchOutcome.resolve 1)] :
        List (QueryEv Nat))).result.data = some 1 :=
  ⟨rfl, rfl⟩

/-- Claim C2 as amended: when `start` is called a second time before the
first fetch settles, the first invocation is suppressed exactly when its
fetcher honors the abort by rejecting with an `AbortError`-named `Error`:
then, even though it settles after the second invocation's resolution,
the terminal state is the second invocation's success. -/
theorem useQuery_supersede_cooperative {T : Type} (v : T) (e : JsError)
    (h : isAbortError e = true) :
    (runLoader [QueryEv.effectRun, QueryEv.effectRun,
        QueryEv.settle 2 (FetchOutcome.resolve v),
        QueryEv.settle 1 (FetchOutcome.reject e)]).result =
      { loading := false, data := some v, errors := [] } := by
  simp [runLoader, List.foldl, stepLoader, useQuerySettle, useQueryBegin,
    useQueryInit, initLoaderState, ctlOf, h]

/-- Witness for the amended C2 at concrete values. -/
theorem useQuery_supersede_cooperative_witness :
    isAbortError (JsError.error "AbortError" "The user aborted a request.") = true ∧
    (runLoader [QueryEv.effectRun, QueryEv.effectRun,
        QueryEv.settle 2 (FetchOutcome.resolve 9),
        QueryEv.settle 1 (FetchOutcome.reject
          (JsError.error "AbortError" "The user aborted a request."))]).result =
      { loading := false, data := some 9, errors := [] } :=
  ⟨by decide,
   useQuery_supersede_cooperative 9
     (JsError.error "AbortError" "The user aborted a request.") (by decide)⟩

/-- Claim C3, counterexample: on the first activation `loading` is `true`;
when the fetcher then rejects with an `AbortError`-named `Error`, the
finally clause of `loadData` still runs `setLoading(false)`, so the
loading flag is changed by the dropped rejection. -/
theorem useQuery_abort_loading_cex :
    (runLoader ([QueryEv.effectRun] : List (QueryEv Nat))).result.loading = true ∧
    (runLoader ([QueryEv.effectRun,
        QueryEv.settle 1 (FetchOutcome.reject (JsError.error "AbortError" "aborted"))] :
        List (QueryEv Nat))).result.loading = false :=
  ⟨rfl, rfl⟩

/-- Claim C3 as amended: a rejection tagged as cancellation (an `Error`
named `AbortError`) produces no error terminal state — `data` and
`errors` are exactly preserved and no message is added — but the finally
clause does set `loading` to `false`. -/
theorem useQuery_abort_reject_drop {T : Type} (ctl : AbortController)
    (s : QueryResult T) (e : JsError) (h : isAbortError e = true) :
    useQuerySettle ctl s (FetchOutcome.reject e) = { s with loading := false } := by
  simp [useQuerySettle, h]

/-- Witness for the amended C3: a pending state holding stale data is
preserved except for the loading flag. -/
theorem useQuery_abort_reject_drop_witness :
    isAbortError (JsError.error "AbortError" "The operation was aborted.") = true ∧
    useQuerySettle { aborted := true }
        ({ loading := true, data := some 3, errors := [] } : QueryResult Nat)
        (FetchOutcome.reject (JsError.error "AbortError" "The operation was aborted.")) =
      { loading := false, data := some 3, errors := [] } :=
  ⟨by decide,
   useQuery_abort_reject_drop { aborted := true }
     ({ loading := true, data := some 3, errors := [] } : QueryResult Nat)
     (JsError.error "AbortError" "The operation was aborted.") (by decide)⟩

/-- Claim C4, counterexample: after a terminal success with value 3, a
re-activation (effect re-run on a changed fetcher) sets `loading` back to
`true` but retains the previous `data`: while loading is `true`, `data`
is `some 3`, not `none`. -/
theorem useQuery_pending_retains_cex :
    (runLoader ([QueryEv.effectRun, QueryEv.settle 1 (FetchOutcome.resolve 3),
        QueryEv.effectRun] : List (QueryEv Nat))).result.loading = true ∧
    (runLoader ([QueryEv.effectRun, QueryEv.settle 1 (FetchOutcome.resolve 3),
        QueryEv.effectRun] : List (QueryEv Nat))).result.data = some 3 :=
  ⟨rfl, rfl⟩

/-- Every step of a `useQuery` instance preserves `resultConsistent`. -/
theorem stepLoader_consistent {T : Type} (ls : LoaderState T) (ev : QueryEv T)
    (h : resultConsistent ls.result) : resultConsistent (stepLoader ls ev).result := by
  cases ev with
  | effectRun => exact h
  | settle act o =>
      cases o with
      | resolve v =>
          exact ⟨Or.inr rfl, by simp [stepLoader, useQuerySettle]⟩
      | reject e =>
          by_cases he : isAbortError e
          · simpa [stepLoader, useQuerySettle, he, resultConsistent] using h
          · exact ⟨Or.inl (by simp [stepLoader, useQuerySettle, he]),
              by simp [stepLoader, useQuerySettle, he]⟩

/-- `resultConsistent` propagates along any event sequence. -/
theorem foldl_stepLoader_consistent {T : Type} (evs : List (QueryEv T))
    (ls : LoaderState T) (h : resultConsistent ls.result) :
    resultConsistent (evs.foldl stepLoader ls).result := by
  induction evs generalizing ls with
  | nil => exact h
  | cons ev rest ih => exact ih _ (stepLoader_consistent ls ev h)

/-- Claim C4 as amended: at every observable point of a `useQuery`
instance, `data` present and `errors` non-empty never hold together, and
`errors` carries at most one message; on the first activation, before any
settlement, `loading` is `true` with `data` null and `errors` empty. (A
re-activation, by contrast, retains the previous `data` and `errors`
while `loading` is `true`.) -/
theorem useQuery_observable_consistency {T : Type} (evs : List (QueryEv T)) :
    ((runLoader evs).result.data = none ∨ (runLoader evs).result.errors = []) ∧
    (runLoader evs).result.errors.length ≤ 1 ∧
    (runLoader ([QueryEv.effectRun] : List (QueryEv T))).result.loading = true ∧
    (runLoader ([QueryEv.effectRun] : List (QueryEv T))).result.data = none ∧
    (runLoader ([QueryEv.effectRun] : List (QueryEv T))).result.errors = [] := by
  have h := foldl_stepLoader_consistent evs (initLoaderState T)
    ⟨Or.inl rfl, by simp [initLoaderState, useQueryInit]⟩
  exact ⟨h.1, h.2, rfl, rfl, rfl⟩

/-- Claim C8, counterexample: a 2xx response whose parsed JSON payload is
the object `{"message": "hello"}` makes `fetchUsers` resolve with the
empty array produced by the `result.data || []` coercion — not with the
parsed JSON payload itself. -/
theorem fetchUsers_nonarray_cex :
    fetchUsers { ok := true, status := 200, statusText := "OK",
                 body := Json.obj [("message", Json.str "hello")] } =
      Except.ok (Json.arr []) ∧
    Json.obj [("message", Json.str "hello")] ≠ Json.arr [] :=
  ⟨rfl, fun h => Json.noConfusion h⟩

/-- Claim C8 as amended: for both example fetchers a non-2xx response
(`ok` false) rejects with a descriptive `Error` rather than resolving —
`fetchUsers` with `HTTP Error: <status> <statusText>`,
`UserApiService.getUsers` with `Network response was not ok` — and a 2xx
response resolves: `UserApiService.getUsers` to exactly the parsed JSON
payload, `fetchUsers` to the payload itself whenever it is an array (a
non-array payload is coerced to its truthy `data` field or `[]`). -/
theorem fetchers_http_status_contract (resp : HttpResponse) :
    (resp.ok = false →
      fetchUsers resp =
        Except.error ("HTTP Error: " ++ toString resp.status ++ " " ++ resp.statusText) ∧
      userApiServiceGetUsers resp = Except.error "Network response was not ok") ∧
    (resp.ok = true → userApiServiceGetUsers resp = Except.ok resp.body) ∧
    (∀ items : List Json, resp.ok = true → resp.body = Json.arr items →
      fetchUsers resp = Except.ok resp.body) := by
  refine ⟨fun h => ⟨?_, ?_⟩, fun h => ?_, fun items h hb => ?_⟩
  · simp [fetchUsers, h]
  · simp [userApiServiceGetUsers, h]
  · simp [userApiServiceGetUsers, h]
  · simp [fetchUsers, h, hb, coerceToArray]

/-- Witness for the amended C8: a 404 rejects for both fetchers; a 200
with an array body resolves to the body for both. -/
theorem fetchers_http_status_contract_witness :
    fetchUsers { ok := false, status := 404, statusText := "Not Found",
                 body := Json.null } = Except.error "HTTP Error: 404 Not Found" ∧
    userApiServiceGetUsers { ok := true, status := 200, statusText := "OK",
                             body := Json.arr [Json.num 1] } =
      Except.ok (Json.arr [Json.num 1]) ∧
    fetchUsers { ok := true, status := 200, statusText := "OK",
                 body := Json.arr [Json.num 1] } =
      Except.ok (Json.arr [Json.num 1]) :=
  ⟨((fetchers_http_status_contract
      { ok := false, status := 404, statusText := "Not Found", body := Json.null }).1 rfl).1,
   (fetchers_http_status_contract
      { ok := true, status := 200, statusText := "OK",
        body := Json.arr [Json.num 1] }).2.1 rfl,
   (fetchers_http_status_contract
      { ok := true, status := 200, statusText := "OK",
        body := Json.arr [Json.num 1] }).2.2 [Json.num 1] rfl rfl⟩
